import Mathlib

/-!
Shallow embedding of the core of `src/main.py` (weatherbcn-bot): the AEMET
cloud-code table, the per-hour scoring function `compute_hour_conditions`,
the sky/rain window selection, the rain-run alert scan, and the
notify-then-technical-log tail of `analyze_day_forecast`.

Python floats are modelled as exact rationals (ℚ), Python ints as ℤ.
A Python expression that can raise is modelled as an `Option`/`Except`
returning `none`/`.error` exactly where the Python raises.
-/

/-- Cloud-layer fractions (alta/media/baja = high/mid/low), as in the values
of `AEMET_CLOUD_MAPPING` in `src/main.py`. -/
structure CloudVals where
  alta : ℚ
  media : ℚ
  baja : ℚ
  deriving DecidableEq, Repr

/-- The literal table `AEMET_CLOUD_MAPPING` from `src/main.py` lines 15-27. -/
def AEMET_CLOUD_MAPPING : List (String × CloudVals) :=
  [ ("11", ⟨0, 0, 0⟩),
    ("11n", ⟨0, 0, 0⟩),
    ("12", ⟨0, 0.2, 0⟩),
    ("12n", ⟨0, 0.2, 0⟩),
    ("17", ⟨1, 0, 0⟩),
    ("17n", ⟨1, 0, 0⟩),
    ("18", ⟨0, 1, 0⟩),
    ("18n", ⟨0, 1, 0⟩),
    ("19", ⟨0, 0, 1⟩),
    ("19n", ⟨0, 0, 1⟩) ]

/-- `AEMET_CLOUD_MAPPING.get(code, {"alta": 0, "media": 0, "baja": 0})`
(line 57): dictionary lookup with a zero-triple default. -/
def cloudLookup (code : String) : CloudVals :=
  (AEMET_CLOUD_MAPPING.lookup code).getD ⟨0, 0, 0⟩

/-- One hour's raw input as `compute_hour_conditions` receives it:
`estadoCielo` is the list of sky-state code values (the `value` field of each
entry), `precipitacion` the list of precipitation entries, each entry's
`value` field being optionally present. -/
structure HourEntry where
  estadoCielo : List String
  precipitacion : List (Option String)
  deriving DecidableEq

/-- Digits-only decimal value of a character list (helper for the numeric
string parsers). -/
def digitsVal (l : List Char) : ℕ :=
  l.foldl (fun acc c => 10 * acc + (c.toNat - 48)) 0

/-- Model of Python `float(s)` on plain decimal strings, without the sign
(digits, an optional dot, at least one digit overall): `none` where Python
raises `ValueError`. Exponents / inf / nan are out of scope of the data
this program parses. -/
def pyFloatCore (l : List Char) : Option ℚ :=
  match l.span (fun c => c ≠ '.') with
  | (intPart, []) =>
      if intPart ≠ [] ∧ intPart.all Char.isDigit then some (digitsVal intPart : ℚ)
      else none
  | (intPart, _dot :: fracPart) =>
      if (intPart ≠ [] ∨ fracPart ≠ []) ∧ intPart.all Char.isDigit ∧
          fracPart.all Char.isDigit then
        some ((digitsVal intPart : ℚ) + (digitsVal fracPart : ℚ) / 10 ^ fracPart.length)
      else none

/-- Surrounding whitespace removed from a character list (the `strip`
Python's numeric constructors apply to string arguments). -/
def trimChars (l : List Char) : List Char :=
  ((l.dropWhile Char.isWhitespace).reverse.dropWhile Char.isWhitespace).reverse

/-- Model of Python `float(s)`: optional surrounding whitespace and sign,
then a plain decimal literal; `none` models a raised `ValueError`. -/
def pyFloat (s : String) : Option ℚ :=
  match trimChars s.toList with
  | '-' :: rest => (pyFloatCore rest).map Neg.neg
  | '+' :: rest => pyFloatCore rest
  | l => pyFloatCore l

/-- Digits-only integer parse: the body of Python `int(s)` after the
optional sign. -/
def pyIntCore (l : List Char) : Option ℤ :=
  if l ≠ [] ∧ l.all Char.isDigit then some (digitsVal l : ℤ) else none

/-- Model of Python `int(s)` for a string argument: optional surrounding
whitespace, optional sign, decimal digits; `none` models a raised
`ValueError`. -/
def pyInt (s : String) : Option ℤ :=
  match trimChars s.toList with
  | '-' :: rest => (pyIntCore rest).map Neg.neg
  | '+' :: rest => pyIntCore rest
  | l => pyIntCore l

/-- Lines 52-57: the cloud fractions of an hour entry — the zero triple when
`estadoCielo` is empty, otherwise the table lookup on the first code. -/
def cloudValsOf (e : HourEntry) : CloudVals :=
  match e.estadoCielo.head? with
  | none => ⟨0, 0, 0⟩
  | some code => cloudLookup code

/-- Lines 59-62: `float(hour_entry.get("precipitacion", [{}])[0].get("value", 0))`
inside `try/except` with fallback `0.0`. An empty list (IndexError), an
absent `value` key (`float(0) = 0.0`) and an unparsable string all yield 0. -/
def computePrecip (e : HourEntry) : ℚ :=
  match e.precipitacion.head? with
  | none => 0
  | some none => 0
  | some (some s) => (pyFloat s).getD 0

/-- The result triple of `compute_hour_conditions`: the two scores and the
four `details` fields. -/
structure HourResult where
  sky : ℚ
  rain : ℚ
  nubes_altas : ℚ
  nubes_medias : ℚ
  nubes_bajas : ℚ
  precipitacion : ℚ
  deriving DecidableEq

/-- `compute_hour_conditions` (lines 51-80): cloud lookup, precipitation
parse with fallback, clamped sky score, binary rain score, details. -/
def compute_hour_conditions (e : HourEntry) : HourResult :=
  let cv := cloudValsOf e
  let precip := computePrecip e
  let sky := max 0 (min 1 (0.6 * cv.alta + 0.3 * cv.media - 0.8 * cv.baja))
  let rain : ℚ := if precip > 0 then 1 else 0
  ⟨sky, rain, cv.alta, cv.media, cv.baja, precip⟩

/-- Modelled from the spec: `clamp(0.6*high + 0.3*mid - 0.8*low, 0, 1)`,
the sky-score formula as §4.2 of the specification states it, kept separate
so the code-derived `compute_hour_conditions` can be compared against it. -/
def sky_score_spec (high mid low : ℚ) : ℚ :=
  max 0 (min 1 (0.6 * high + 0.3 * mid - 0.8 * low))

/-- Python `range(a, b)` over integers, as a list. -/
def intRange (a b : ℤ) : List ℤ :=
  (List.range (b - a).toNat).map (fun (i : ℕ) => a + (i : ℤ))

/-- Python `sorted(set(l))` for integer lists: duplicates removed, ascending
order. -/
def sortedDedup (l : List ℤ) : List ℤ :=
  l.dedup.insertionSort (fun a b => a ≤ b)

/-- Lines 128-135: the sky-evaluation hours from the current hour and the
sunrise (`orto_hour`) / sunset (`ocaso_hour`) hours. -/
def sky_hours (now_hour orto_hour ocaso_hour : ℤ) : List ℤ :=
  let l : List ℤ :=
    if now_hour < orto_hour then
      intRange (max 0 (orto_hour - 1)) (orto_hour + 2) ++
        intRange (ocaso_hour - 1) (min 23 (ocaso_hour + 2) + 1)
    else if now_hour < ocaso_hour then
      intRange (ocaso_hour - 1) (min 23 (ocaso_hour + 2) + 1)
    else []
  sortedDedup l

/-- Lines 137-140: rain-evaluation hours `range(max(8, now.hour), 23)`. -/
def rain_hours (now_hour : ℤ) : List ℤ :=
  intRange (max 8 now_hour) (22 + 1)

/-- `SCORE_THRESHOLD = 0.5` (line 32). -/
def SCORE_THRESHOLD : ℚ := 0.5

/-- Line 162: hours of the sky window whose sky score meets the threshold. -/
def sky_alert_hours (sky_scores : ℤ → ℚ) (skyH : List ℤ) : List ℤ :=
  skyH.filter (fun h => SCORE_THRESHOLD ≤ sky_scores h)

/-- Lines 165-173: the scan over the rain window keeping a consecutive
counter; on a truthy (nonzero) rain score the counter increments and, once
it is at least 2, `range(h-1, h+1)` (that is, `[h-1, h]`) is appended; a
zero score resets the counter. -/
def rainScanAux (rain_scores : ℤ → ℚ) : List ℤ → ℕ → List ℤ
  | [], _ => []
  | h :: rest, c =>
    if rain_scores h ≠ 0 then
      (if 2 ≤ c + 1 then [h - 1, h] else []) ++ rainScanAux rain_scores rest (c + 1)
    else
      rainScanAux rain_scores rest 0

/-- Lines 165-174: the full rain-alert computation, ending with
`sorted(set(...))`. -/
def rain_alert_hours (rain_scores : ℤ → ℚ) (rainH : List ℤ) : List ℤ :=
  sortedDedup (rainScanAux rain_scores rainH 0)

/-- Outcome of the notification POST in `send_telegram_message`
(lines 40-48): the request succeeds with a 2xx status, succeeds with an
error status (`raise_for_status` raises, caught and logged), or the
transport itself fails (`requests.post` raises: timeout, connection). -/
inductive DeliveryOutcome where
  | ok
  | httpError
  | transportError
  deriving DecidableEq

/-- `send_telegram_message` (lines 40-48): only the `raise_for_status`
exception is caught and logged; a transport exception from `requests.post`
propagates to the caller, modelled as `.error ()`. -/
def send_telegram_message (o : DeliveryOutcome) : Except Unit Unit :=
  match o with
  | .transportError => .error ()
  | _ => .ok ()

/-- Lines 177-183: the message is sent only when some alert set is
non-empty; an exception from `send_telegram_message` propagates. -/
def maybeNotify (skyA rainA : List ℤ) (o : DeliveryOutcome) : Except Unit Unit :=
  if skyA ≠ [] ∨ rainA ≠ [] then send_telegram_message o
  else .ok ()

/-- One technical-log line (lines 189-190): the hour, both scores and the
four detail fields. -/
structure TechLine where
  hour : ℤ
  sky : ℚ
  rain : ℚ
  nubes_altas : ℚ
  nubes_medias : ℚ
  nubes_bajas : ℚ
  precipitacion : ℚ
  deriving DecidableEq

/-- Lines 186-191: one line per analyzed hour, in ascending hour order
(`for h in sorted(hourly_entries.keys())`), carrying the scores and
details of that hour. -/
def techLog (hours : List ℤ) (res : ℤ → HourResult) : List TechLine :=
  (sortedDedup hours).map fun h =>
    ⟨h, (res h).sky, (res h).rain, (res h).nubes_altas, (res h).nubes_medias,
      (res h).nubes_bajas, (res h).precipitacion⟩

/-- Lines 176-191: the tail of `analyze_day_forecast` — notify if some alert
fired, then produce the technical log; an uncaught exception during
delivery aborts before the log is produced. -/
def alertAndLog (skyA rainA : List ℤ) (hours : List ℤ) (res : ℤ → HourResult)
    (o : DeliveryOutcome) : Except Unit (List TechLine) :=
  match maybeNotify skyA rainA o with
  | .error e => .error e
  | .ok _ => .ok (techLog hours res)

/-- Line 124: `int(dia_obj.get("orto", "07:00").split(":")[0])` — the part of
the string before the first colon, fed to `int`; `none` models the
`ValueError` that `int` raises on a malformed hour. -/
def deriveOrtoHour (orto : Option String) : Option ℤ :=
  pyInt (String.mk ((orto.getD "07:00").toList.takeWhile (fun c => c ≠ ':')))

/-- Line 125: same derivation for `ocaso` with default `"17:00"`. -/
def deriveOcasoHour (ocaso : Option String) : Option ℤ :=
  pyInt (String.mk ((ocaso.getD "17:00").toList.takeWhile (fun c => c ≠ ':')))

/-! ### Basic lemmas about the list combinators used by the embedding -/

/-- Membership in the integer range `range(a, b)`. -/
theorem mem_intRange {a b x : ℤ} : x ∈ intRange a b ↔ a ≤ x ∧ x < b := by
  unfold intRange
  simp only [List.mem_map, List.mem_range]
  constructor
  · rintro ⟨i, hi, rfl⟩
    omega
  · intro hx
    exact ⟨(x - a).toNat, by omega, by omega⟩

/-- `sorted(set(l))` has the same members as `l`. -/
theorem mem_sortedDedup {l : List ℤ} {x : ℤ} : x ∈ sortedDedup l ↔ x ∈ l := by
  unfold sortedDedup
  rw [List.mem_insertionSort, List.mem_dedup]

/-- `sorted(set(l))` has no duplicates. -/
theorem nodup_sortedDedup (l : List ℤ) : (sortedDedup l).Nodup :=
  (List.Perm.nodup_iff (List.perm_insertionSort _ _)).mpr (List.nodup_dedup l)

/-- `sorted(set(l))` is sorted ascending. -/
theorem sorted_sortedDedup (l : List ℤ) :
    List.Sorted (fun a b => a ≤ b) (sortedDedup l) :=
  List.sorted_insertionSort _ _

/-- `intRange` never repeats an hour. -/
theorem nodup_intRange (a b : ℤ) : (intRange a b).Nodup := by
  unfold intRange
  refine (List.nodup_range _).map ?_
  intro i j hij
  simp only at hij
  omega

/-- Unfolding of a non-empty integer range as a cons. -/
theorem intRange_eq_cons {a b : ℤ} (h : a < b) :
    intRange a b = a :: intRange (a + 1) b := by
  unfold intRange
  have hn : (b - a).toNat = (b - (a + 1)).toNat + 1 := by omega
  rw [hn, List.range_succ_eq_map, List.map_cons, List.map_map]
  refine congrArg₂ _ (by simp) ?_
  apply List.map_congr_left
  intro i _
  simp only [Function.comp_apply]
  push_cast
  ring

/-- An empty integer range. -/
theorem intRange_eq_nil {a b : ℤ} (h : b ≤ a) : intRange a b = [] := by
  unfold intRange
  have hn : (b - a).toNat = 0 := by omega
  rw [hn]
  rfl

/-- Head of a non-empty integer range. -/
theorem head?_intRange {a b : ℤ} (h : a < b) : (intRange a b).head? = some a := by
  rw [intRange_eq_cons h]
  rfl

/-- Consecutive hours: `intRange` is a chain stepping by one. -/
theorem chain_intRange : ∀ (n : ℕ) (a b : ℤ), (b - a).toNat = n →
    List.Chain' (fun x y => y = x + 1) (intRange a b) := by
  intro n
  induction n with
  | zero =>
    intro a b hn
    rw [intRange_eq_nil (by omega)]
    exact List.chain'_nil
  | succ m ih =>
    intro a b hn
    rw [intRange_eq_cons (by omega)]
    rw [List.chain'_cons']
    refine ⟨?_, ih (a + 1) b (by omega)⟩
    intro y hy
    by_cases hlt : a + 1 < b
    · rw [head?_intRange hlt] at hy
      simp at hy
      omega
    · rw [intRange_eq_nil (by omega)] at hy
      simp at hy

/-- In a step-by-one chain, every element of the tail exceeds the head. -/
theorem chain_head_lt :
    ∀ (t : List ℤ) (h : ℤ), List.Chain' (fun x y => y = x + 1) (h :: t) →
      ∀ x ∈ t, h < x := by
  intro t
  induction t with
  | nil => simp
  | cons b t2 ih =>
    intro h hc x hx
    rw [List.chain'_cons] at hc
    obtain ⟨hb, hc2⟩ := hc
    rcases List.mem_cons.mp hx with rfl | hx2
    · omega
    · have := ih b hc2 x hx2
      omega

/-- Characterization of the hours emitted by the rain scan over a
step-by-one chain of hours: with a counter `c` recording how many rain
hours immediately precede the list, an hour is emitted iff it is a rain
hour of the list with a rain neighbour (inside the list or in the recorded
prefix), or it is the predecessor of a rain head continuing the prefix. -/
theorem rainScanAux_mem_iff (sc : ℤ → ℚ) :
    ∀ (l : List ℤ) (c : ℕ), List.Chain' (fun x y => y = x + 1) l →
      ∀ x : ℤ,
        (x ∈ rainScanAux sc l c ↔
          ((x ∈ l ∧ sc x ≠ 0 ∧
             ((x - 1 ∈ l ∧ sc (x - 1) ≠ 0) ∨ (x + 1 ∈ l ∧ sc (x + 1) ≠ 0) ∨
               (l.head? = some x ∧ 1 ≤ c))) ∨
           (1 ≤ c ∧ ∃ h0, l.head? = some h0 ∧ sc h0 ≠ 0 ∧ x = h0 - 1))) := by
  intro l
  induction l with
  | nil =>
    intro c _ x
    simp [rainScanAux]
  | cons h t ih =>
    intro c hc x
    have hgt : ∀ y ∈ t, h < y := chain_head_lt t h hc
    have hct : List.Chain' (fun a b => b = a + 1) t := hc.tail
    by_cases hsc : sc h = 0
    · have hscan : rainScanAux sc (h :: t) c = rainScanAux sc t 0 := by
        simp [rainScanAux, hsc]
      rw [hscan, ih 0 hct x]
      constructor
      · rintro (⟨hxt, hsx, hcase⟩ | ⟨hc1, _⟩)
        · refine Or.inl ⟨List.mem_cons_of_mem _ hxt, hsx, ?_⟩
          rcases hcase with ⟨hm, hs⟩ | ⟨hm, hs⟩ | ⟨_, hle⟩
          · exact Or.inl ⟨List.mem_cons_of_mem _ hm, hs⟩
          · exact Or.inr (Or.inl ⟨List.mem_cons_of_mem _ hm, hs⟩)
          · omega
        · omega
      · rintro (⟨hxl, hsx, hcase⟩ | ⟨hc1, h0, hm0, hs0, hx0⟩)
        · have hxt : x ∈ t := by
            rcases List.mem_cons.mp hxl with rfl | hxt
            · exact absurd hsc hsx
            · exact hxt
          refine Or.inl ⟨hxt, hsx, ?_⟩
          rcases hcase with ⟨hm, hs⟩ | ⟨hm, hs⟩ | ⟨hm, _⟩
          · rcases List.mem_cons.mp hm with he | hmt
            · rw [he] at hs
              exact absurd hsc hs
            · exact Or.inl ⟨hmt, hs⟩
          · rcases List.mem_cons.mp hm with he | hmt
            · exact absurd he (by have := hgt x hxt; omega)
            · exact Or.inr (Or.inl ⟨hmt, hs⟩)
          · rw [List.head?_cons, Option.some.injEq] at hm
            rw [← hm] at hsx
            exact absurd hsc hsx
        · rw [List.head?_cons, Option.some.injEq] at hm0
          rw [← hm0] at hs0
          exact absurd hsc hs0
    · have hscan : rainScanAux sc (h :: t) c =
          (if 2 ≤ c + 1 then [h - 1, h] else []) ++ rainScanAux sc t (c + 1) := by
        simp only [rainScanAux]
        rw [if_pos hsc]
      have hifmem : x ∈ (if 2 ≤ c + 1 then [h - 1, h] else []) ↔
          (1 ≤ c ∧ (x = h - 1 ∨ x = h)) := by
        by_cases hc1 : 1 ≤ c
        · rw [if_pos (by omega)]
          simp only [List.mem_cons, List.not_mem_nil, or_false]
          exact ⟨fun hx => ⟨hc1, hx⟩, fun hx => hx.2⟩
        · rw [if_neg (by omega)]
          simp only [List.not_mem_nil, false_iff, not_and]
          intro hcon
          exact absurd hcon hc1
      rw [hscan, List.mem_append, hifmem]
      cases t with
      | nil =>
        simp only [rainScanAux, List.not_mem_nil, or_false]
        constructor
        · rintro ⟨hc1, rfl | rfl⟩
          · exact Or.inr ⟨hc1, h, rfl, hsc, rfl⟩
          · exact Or.inl ⟨List.mem_cons_self _ _, hsc, Or.inr (Or.inr ⟨rfl, hc1⟩)⟩
        · rintro (⟨hxl, hsx, hcase⟩ | ⟨hc1, h0, hm0, hs0, hx0⟩)
          · have hx : x = h := by
              rcases List.mem_cons.mp hxl with rfl | hx3
              · rfl
              · exact absurd hx3 (List.not_mem_nil x)
            subst hx
            rcases hcase with ⟨hm, _⟩ | ⟨hm, _⟩ | ⟨_, hle⟩
            · rcases List.mem_cons.mp hm with he | hmt
              · omega
              · exact absurd hmt (List.not_mem_nil _)
            · rcases List.mem_cons.mp hm with he | hmt
              · omega
              · exact absurd hmt (List.not_mem_nil _)
            · exact ⟨hle, Or.inr rfl⟩
          · rw [List.head?_cons, Option.some.injEq] at hm0
            subst hm0
            exact ⟨hc1, Or.inl hx0⟩
      | cons b t2 =>
        have hb : b = h + 1 := (List.chain'_cons.mp hc).1
        subst hb
        have hgt2 : ∀ y ∈ t2, h + 1 < y := chain_head_lt t2 (h + 1) hct
        rw [ih (c + 1) hct x]
        constructor
        · rintro (⟨hc1, rfl | rfl⟩ | ⟨hxm, hsx, hcase⟩ | ⟨_, h0, hm0, hs0, hx0⟩)
          · exact Or.inr ⟨hc1, h, rfl, hsc, rfl⟩
          · exact Or.inl ⟨List.mem_cons_self _ _, hsc, Or.inr (Or.inr ⟨rfl, hc1⟩)⟩
          · refine Or.inl ⟨List.mem_cons_of_mem _ hxm, hsx, ?_⟩
            rcases hcase with ⟨hm, hs⟩ | ⟨hm, hs⟩ | ⟨hm, _⟩
            · exact Or.inl ⟨List.mem_cons_of_mem _ hm, hs⟩
            · exact Or.inr (Or.inl ⟨List.mem_cons_of_mem _ hm, hs⟩)
            · rw [List.head?_cons, Option.some.injEq] at hm
              subst hm
              refine Or.inl ?_
              have he : h + 1 - 1 = h := by ring
              rw [he]
              exact ⟨List.mem_cons_self _ _, hsc⟩
          · rw [List.head?_cons, Option.some.injEq] at hm0
            subst hm0
            have hx : x = h := by omega
            subst hx
            refine Or.inl ⟨List.mem_cons_self _ _, hsc, Or.inr (Or.inl ⟨?_, ?_⟩)⟩
            · exact List.mem_cons_of_mem _ (List.mem_cons_self _ _)
            · exact hs0
        · rintro (⟨hxl, hsx, hcase⟩ | ⟨hc2, h0, hm0, hs0, hx0⟩)
          · rcases List.mem_cons.mp hxl with rfl | hxm2
            · rcases hcase with ⟨hm, hs⟩ | ⟨hm, hs⟩ | ⟨_, hle⟩
              · exfalso
                rcases List.mem_cons.mp hm with he | hm2
                · omega
                · rcases List.mem_cons.mp hm2 with he | hm3
                  · omega
                  · have := hgt2 _ hm3
                    omega
              · refine Or.inr (Or.inr ⟨by omega, x + 1, rfl, hs, by omega⟩)
              · exact Or.inl ⟨hle, Or.inr rfl⟩
            · have hx_gt : h < x := hgt x hxm2
              rcases hcase with ⟨hm, hs⟩ | ⟨hm, hs⟩ | ⟨he, _⟩
              · rcases List.mem_cons.mp hm with he | hm2
                · refine Or.inr (Or.inl ⟨hxm2, hsx, Or.inr (Or.inr ⟨?_, by omega⟩)⟩)
                  rw [List.head?_cons, Option.some.injEq]
                  omega
                · exact Or.inr (Or.inl ⟨hxm2, hsx, Or.inl ⟨hm2, hs⟩⟩)
              · rcases List.mem_cons.mp hm with he | hm2
                · omega
                · exact Or.inr (Or.inl ⟨hxm2, hsx, Or.inr (Or.inl ⟨hm2, hs⟩)⟩)
              · rw [List.head?_cons, Option.some.injEq] at he
                omega
          · rw [List.head?_cons, Option.some.injEq] at hm0
            subst hm0
            exact Or.inl ⟨hc2, Or.inl hx0⟩

/-- Membership in the rain-alert set over a step-by-one chain window
(`c = 0` instance of the scan characterization): exactly the rain hours
with a rain neighbour inside the window are marked. -/
theorem mem_rain_alert_hours_iff (sc : ℤ → ℚ) (l : List ℤ)
    (hc : List.Chain' (fun x y => y = x + 1) l) (x : ℤ) :
    x ∈ rain_alert_hours sc l ↔
      (x ∈ l ∧ sc x ≠ 0 ∧
        ((x - 1 ∈ l ∧ sc (x - 1) ≠ 0) ∨ (x + 1 ∈ l ∧ sc (x + 1) ≠ 0))) := by
  unfold rain_alert_hours
  rw [mem_sortedDedup, rainScanAux_mem_iff sc l 0 hc x]
  constructor
  · rintro (⟨h1, h2, hcc | hcc | ⟨_, hcon⟩⟩ | ⟨hcon, _⟩)
    · exact ⟨h1, h2, Or.inl hcc⟩
    · exact ⟨h1, h2, Or.inr hcc⟩
    · omega
    · omega
  · rintro ⟨h1, h2, hcc | hcc⟩
    · exact Or.inl ⟨h1, h2, Or.inl hcc⟩
    · exact Or.inl ⟨h1, h2, Or.inr (Or.inl hcc)⟩

/-- The rain window is a step-by-one chain. -/
theorem chain_rain_hours (now : ℤ) :
    List.Chain' (fun x y => y = x + 1) (rain_hours now) :=
  chain_intRange _ _ _ rfl

/-- A dictionary lookup on a key not among the stored keys yields `none`. -/
theorem lookup_eq_none_of_not_mem_keys :
    ∀ (l : List (String × CloudVals)) (code : String),
      code ∉ l.map Prod.fst → l.lookup code = none := by
  intro l
  induction l with
  | nil =>
    intro code _
    rfl
  | cons p t ih =>
    intro code hnc
    cases p with
    | mk k v =>
      have h1 : code ≠ k := by
        intro he
        exact hnc (by rw [he]; exact List.mem_map_of_mem _ (List.mem_cons_self _ _))
      have h2 : (code == k) = false := beq_eq_false_iff_ne.mpr h1
      simp only [List.lookup, h2]
      exact ih code (fun hm => hnc (List.mem_cons_of_mem _ hm))

/-! ### Claims -/

/-- Claim C2: for rain window hours `[8,9,10,11,12]` with rain-score
pattern `[0,1,1,1,0]` at those hours, the scan emits `[9,10]` when the
consecutive counter reaches 2 at hour 10 and `[10,11]` when it reaches 3
at hour 11, so the final rain-alert set is exactly `{9, 10, 11}`. -/
theorem c2_rain_alert_example :
    rainScanAux (fun h => if h = 9 ∨ h = 10 ∨ h = 11 then 1 else 0) [8, 9, 10, 11, 12] 0
        = [9, 10, 10, 11]
    ∧ rain_alert_hours (fun h => if h = 9 ∨ h = 10 ∨ h = 11 then 1 else 0) [8, 9, 10, 11, 12]
        = [9, 10, 11] := by
  constructor
  · decide
  · decide

/-- Claim C5: window selection — with `now_hour=5, sunrise=7, sunset=20`
sky hours are `{6,7,8,19,20,21,22}` and rain hours `{8,...,22}`; with
`now_hour=21` sky hours are empty and rain hours `{21,22}`; in general the
rain window is `max(8, now_hour) .. 22` inclusive. -/
theorem c5_window_selection :
    sky_hours 5 7 20 = [6, 7, 8, 19, 20, 21, 22]
    ∧ rain_hours 5 = [8, 9, 10, 11, 12, 13, 14, 15, 16, 17, 18, 19, 20, 21, 22]
    ∧ sky_hours 21 7 20 = []
    ∧ rain_hours 21 = [21, 22]
    ∧ (∀ now h : ℤ, h ∈ rain_hours now ↔ (max 8 now ≤ h ∧ h ≤ 22)) := by
  refine ⟨by decide, by decide, by decide, by decide, ?_⟩
  intro now h
  unfold rain_hours
  rw [mem_intRange]
  omega

/-- Claim C7: the sky score of every hour input equals the spec formula
`clamp(0.6*high + 0.3*mid - 0.8*low, 0, 1)` applied to its cloud
fractions; the clamp keeps every output in `[0,1]`; and the three example
inputs evaluate to 0.9, 0.1 and 0 under exact rational arithmetic. -/
theorem c7_sky_score_formula :
    (∀ e : HourEntry, (compute_hour_conditions e).sky =
        sky_score_spec (cloudValsOf e).alta (cloudValsOf e).media (cloudValsOf e).baja)
    ∧ (∀ high mid low : ℚ, 0 ≤ sky_score_spec high mid low ∧ sky_score_spec high mid low ≤ 1)
    ∧ sky_score_spec 1 1 0 = 0.9
    ∧ sky_score_spec 1 1 1 = 0.1
    ∧ sky_score_spec 0 0 1 = 0 := by
  refine ⟨fun e => rfl, fun a b c => ⟨le_max_left _ _, max_le (by norm_num) (min_le_left _ _)⟩,
    ?_, ?_, ?_⟩
  · norm_num [sky_score_spec]
  · norm_num [sky_score_spec]
  · norm_num [sky_score_spec]

/-- Claim C8: the rain score is `1` exactly when the parsed precipitation
is strictly positive and `0` otherwise; a missing entry, a missing value
and an unparsable value all fall back to `0` without failing. -/
theorem c8_rain_score_binary :
    ∀ (sts : List String) (ps : List (Option String)) (s : String),
      ((compute_hour_conditions ⟨sts, ps⟩).rain
          = if 0 < computePrecip ⟨sts, ps⟩ then 1 else 0)
      ∧ (pyFloat s = none → (compute_hour_conditions ⟨sts, [some s]⟩).rain = 0)
      ∧ ((compute_hour_conditions ⟨sts, [none]⟩).rain = 0)
      ∧ ((compute_hour_conditions ⟨sts, []⟩).rain = 0)
      ∧ (∀ q : ℚ, pyFloat s = some q → 0 < q →
            (compute_hour_conditions ⟨sts, [some s]⟩).rain = 1) := by
  intro sts ps s
  refine ⟨rfl, ?_, ?_, ?_, ?_⟩
  · intro hn
    simp [compute_hour_conditions, computePrecip, hn]
  · norm_num [compute_hour_conditions, computePrecip]
  · norm_num [compute_hour_conditions, computePrecip]
  · intro q hq hpos
    simp [compute_hour_conditions, computePrecip, hq, hpos]

/-- Claim C8 witness: the unparsable value `"abc"` yields rain score 0 and
the positive value `"3"` yields rain score 1. -/
theorem c8_rain_score_binary_witness :
    (compute_hour_conditions ⟨[], [some "abc"]⟩).rain = 0
    ∧ (compute_hour_conditions ⟨[], [some "3"]⟩).rain = 1 :=
  ⟨(c8_rain_score_binary [] [some "abc"] "abc").2.1 (by decide),
   (c8_rain_score_binary [] [some "3"] "3").2.2.2.2 3 (by decide) (by norm_num)⟩

/-- Claim C9: the cloud-code lookup is total — a code outside the table
yields the zero triple, an absent code yields the zero triple, and an hour
whose code is unrecognized gets sky score 0. -/
theorem c9_cloud_lookup_total :
    ∀ code : String, code ∉ AEMET_CLOUD_MAPPING.map Prod.fst →
      (cloudLookup code = ⟨0, 0, 0⟩
       ∧ (∀ ps : List (Option String), cloudValsOf ⟨[code], ps⟩ = ⟨0, 0, 0⟩
            ∧ (compute_hour_conditions ⟨[code], ps⟩).sky = 0)
       ∧ (∀ ps : List (Option String), cloudValsOf ⟨[], ps⟩ = ⟨0, 0, 0⟩)) := by
  intro code hnc
  have hl : cloudLookup code = ⟨0, 0, 0⟩ := by
    unfold cloudLookup
    rw [lookup_eq_none_of_not_mem_keys _ _ hnc]
    rfl
  refine ⟨hl, ?_, fun ps => rfl⟩
  intro ps
  have hcv : cloudValsOf ⟨[code], ps⟩ = ⟨0, 0, 0⟩ := hl
  refine ⟨hcv, ?_⟩
  show max 0 (min 1 (0.6 * (cloudValsOf ⟨[code], ps⟩).alta
      + 0.3 * (cloudValsOf ⟨[code], ps⟩).media
      - 0.8 * (cloudValsOf ⟨[code], ps⟩).baja)) = 0
  rw [hcv]
  norm_num

/-- Claim C9 witness: the unknown code `"99"` maps to the zero triple and
yields sky score 0. -/
theorem c9_cloud_lookup_total_witness :
    cloudLookup "99" = ⟨0, 0, 0⟩ ∧ (compute_hour_conditions ⟨["99"], []⟩).sky = 0 :=
  ⟨(c9_cloud_lookup_total "99" (by decide)).1,
   ((c9_cloud_lookup_total "99" (by decide)).2.1 []).2⟩

/-- Claim C1 counterexample: with rain exactly at hours 9-12 — a maximal
4-hour run inside the rain window `[8..22]` for `now_hour = 5` — the claim
says the detection covers hours 2-4 of the run (10-12) and not hour 1 (9);
the code marks hour 9 as well: the full alert set is `[9,10,11,12]`. -/
theorem c1_counterexample :
    (9 : ℤ) ∈ rain_alert_hours (fun h => if 9 ≤ h ∧ h ≤ 12 then 1 else 0) (rain_hours 5)
    ∧ rain_alert_hours (fun h => if 9 ≤ h ∧ h ≤ 12 then 1 else 0) (rain_hours 5)
        = [9, 10, 11, 12] := by
  constructor
  · decide
  · decide

/-- Claim C1 (amended): over the rain window the detection marks exactly
the rain hours having a rain neighbour inside the window, so the
overlapping boundary pairs cover every hour of each maximal run of length
at least 2 — including the run's first hour — and nothing else; a 4-hour
rain run yields hours 1-4 of the run. -/
theorem c1_rain_run_coverage :
    (∀ (rain_scores : ℤ → ℚ) (now x : ℤ),
        x ∈ rain_alert_hours rain_scores (rain_hours now) ↔
          (x ∈ rain_hours now ∧ rain_scores x ≠ 0 ∧
            ((x - 1 ∈ rain_hours now ∧ rain_scores (x - 1) ≠ 0) ∨
              (x + 1 ∈ rain_hours now ∧ rain_scores (x + 1) ≠ 0))))
    ∧ rain_alert_hours (fun h => if 9 ≤ h ∧ h ≤ 12 then 1 else 0) (rain_hours 5)
        = [9, 10, 11, 12] := by
  constructor
  · intro rsc now x
    exact mem_rain_alert_hours_iff rsc (rain_hours now) (chain_rain_hours now) x
  · decide

/-- Claim C3 counterexample: a present but malformed sunrise/sunset field
does not fall back to the default — the `int(...)` conversion fails
(modelled as `none`), contradicting the claim that the derivation never
raises for malformed values. -/
theorem c3_counterexample :
    deriveOrtoHour (some "morning") = none
    ∧ deriveOcasoHour (some "evening") = none := by
  constructor
  · decide
  · decide

/-- Claim C3 (amended): an absent orto/ocaso field falls back to the
defaults 07:00 / 17:00; a present well-formed field parses to its hour; a
present field whose hour part does not parse as an integer makes the
derivation itself fail (a raised `ValueError`), not fall back. -/
theorem c3_sunrise_sunset_defaults :
    deriveOrtoHour none = some 7
    ∧ deriveOcasoHour none = some 17
    ∧ deriveOrtoHour (some "06:45") = some 6
    ∧ deriveOcasoHour (some "20:10") = some 20
    ∧ (∀ s : String,
        pyInt (String.mk (s.toList.takeWhile (fun c => c ≠ ':'))) = none →
          deriveOrtoHour (some s) = none ∧ deriveOcasoHour (some s) = none) := by
  refine ⟨by decide, by decide, by decide, by decide, ?_⟩
  intro s hs
  exact ⟨hs, hs⟩

/-- Claim C3 witness: the malformed hour string `"07h"` makes both
derivations fail. -/
theorem c3_sunrise_sunset_defaults_witness :
    deriveOrtoHour (some "07h") = none ∧ deriveOcasoHour (some "07h") = none :=
  c3_sunrise_sunset_defaults.2.2.2.2 "07h" (by decide)

/-- Claim C4 counterexample: when an alert fired and the delivery POST
itself fails at transport level (timeout/connection), the exception
propagates out of `send_telegram_message` and the technical log is never
produced — contradicting the claim that a delivery failure cannot prevent
the technical log. -/
theorem c4_counterexample :
    alertAndLog [9] [] [9] (fun _ => ⟨0, 0, 0, 0, 0, 0⟩) DeliveryOutcome.transportError
      = Except.error () := rfl

/-- Claim C4 (amended): as long as delivery does not raise at transport
level (it succeeds, or fails with an HTTP error status that is caught and
logged), the technical log is produced regardless of whether any alert
fired: one line per hour of the results, in ascending hour order, carrying
both scores and the four detail fields. -/
theorem c4_tech_log_always :
    ∀ (skyA rainA hours : List ℤ) (res : ℤ → HourResult) (o : DeliveryOutcome),
      o ≠ DeliveryOutcome.transportError →
      (alertAndLog skyA rainA hours res o = Except.ok (techLog hours res)
       ∧ (techLog hours res).map TechLine.hour = sortedDedup hours
       ∧ List.Sorted (fun a b => a ≤ b) ((techLog hours res).map TechLine.hour)
       ∧ (∀ tl ∈ techLog hours res,
            tl.sky = (res tl.hour).sky ∧ tl.rain = (res tl.hour).rain
            ∧ tl.nubes_altas = (res tl.hour).nubes_altas
            ∧ tl.nubes_medias = (res tl.hour).nubes_medias
            ∧ tl.nubes_bajas = (res tl.hour).nubes_bajas
            ∧ tl.precipitacion = (res tl.hour).precipitacion)
       ∧ (∀ h : ℤ, h ∈ (techLog hours res).map TechLine.hour ↔ h ∈ hours)) := by
  intro skyA rainA hours res o ho
  have hmap : (techLog hours res).map TechLine.hour = sortedDedup hours := by
    unfold techLog
    rw [List.map_map]
    have hfun : (TechLine.hour ∘ fun h =>
        (⟨h, (res h).sky, (res h).rain, (res h).nubes_altas, (res h).nubes_medias,
          (res h).nubes_bajas, (res h).precipitacion⟩ : TechLine)) = id := by
      funext h
      rfl
    rw [hfun, List.map_id]
  have hnot : maybeNotify skyA rainA o = Except.ok () := by
    unfold maybeNotify send_telegram_message
    cases o with
    | ok => split <;> rfl
    | httpError => split <;> rfl
    | transportError => exact absurd rfl ho
  refine ⟨?_, hmap, ?_, ?_, ?_⟩
  · unfold alertAndLog
    rw [hnot]
  · rw [hmap]
    exact sorted_sortedDedup hours
  · intro tl htl
    unfold techLog at htl
    rcases List.mem_map.mp htl with ⟨h, _, rfl⟩
    exact ⟨rfl, rfl, rfl, rfl, rfl, rfl⟩
  · intro h
    rw [hmap, mem_sortedDedup]

/-- Claim C4 witness: an HTTP-error delivery outcome with a fired alert
still produces the technical log. -/
theorem c4_tech_log_always_witness :
    alertAndLog [9] [] [9] (fun _ => ⟨1, 0, 1, 0, 0, 0⟩) DeliveryOutcome.httpError
      = Except.ok (techLog [9] (fun _ => ⟨1, 0, 1, 0, 0, 0⟩)) :=
  (c4_tech_log_always [9] [] [9] (fun _ => ⟨1, 0, 1, 0, 0, 0⟩)
    DeliveryOutcome.httpError (by decide)).1

/-- Claim C6 counterexample: with all three inputs inside 0-23
(`now_hour = 5`, sunrise 23, sunset 20) the sky window contains hour 24,
which is outside the valid 0-23 range. -/
theorem c6_counterexample :
    (24 : ℤ) ∈ sky_hours 5 23 20 ∧ ¬((24 : ℤ) ≤ 23) := by
  constructor
  · decide
  · decide

/-- Claim C6 (amended): both windows are always duplicate-free; the rain
window always lies inside 0-23; the sky window lies inside 0-23 provided
the sunrise hour is at most 22 and the sunset hour at least 1 (for
sunrise 23 or sunset 0 the construction can emit 24 or -1). -/
theorem c6_window_bounds :
    ∀ (now orto ocaso : ℤ),
      (sky_hours now orto ocaso).Nodup
      ∧ (rain_hours now).Nodup
      ∧ (∀ h ∈ rain_hours now, 0 ≤ h ∧ h ≤ 23)
      ∧ (orto ≤ 22 → 1 ≤ ocaso → ∀ h ∈ sky_hours now orto ocaso, 0 ≤ h ∧ h ≤ 23) := by
  intro now orto ocaso
  refine ⟨nodup_sortedDedup _, nodup_intRange _ _, ?_, ?_⟩
  · intro h hm
    unfold rain_hours at hm
    have := mem_intRange.mp hm
    omega
  · intro ho hoc h hm
    simp only [sky_hours] at hm
    rw [mem_sortedDedup] at hm
    split at hm
    · rcases List.mem_append.mp hm with h1 | h2
      · have := mem_intRange.mp h1
        omega
      · have := mem_intRange.mp h2
        omega
    · split at hm
      · have := mem_intRange.mp hm
        omega
      · exact absurd hm (List.not_mem_nil h)

/-- Claim C6 witness: at `now=5`, sunrise 7, sunset 20 the windows are
duplicate-free and hour 6 of the sky window is within 0-23. -/
theorem c6_window_bounds_witness :
    (sky_hours 5 7 20).Nodup ∧ (0 ≤ (6 : ℤ) ∧ (6 : ℤ) ≤ 23) :=
  ⟨(c6_window_bounds 5 7 20).1,
   (c6_window_bounds 5 7 20).2.2.2 (by decide) (by decide) 6 (by decide)⟩

/-- Claim C10: every sky-alert hour lies in the sky window and every
rain-alert hour lies in the rain window — the one-hour lookback can never
escape the window, because the counter only reaches 2 from the second
window hour onward. -/
theorem c10_alerts_within_windows :
    ∀ (sky_scores rain_scores : ℤ → ℚ) (now orto ocaso : ℤ),
      (∀ x ∈ sky_alert_hours sky_scores (sky_hours now orto ocaso),
          x ∈ sky_hours now orto ocaso)
      ∧ (∀ x ∈ rain_alert_hours rain_scores (rain_hours now), x ∈ rain_hours now) := by
  intro ssc rsc now orto ocaso
  constructor
  · intro x hx
    exact List.mem_of_mem_filter hx
  · intro x hx
    exact ((mem_rain_alert_hours_iff rsc (rain_hours now) (chain_rain_hours now) x).mp hx).1

/-- Claim C10 witness: with constant score 1 everywhere, hour 19 of the
sky-alert set is in the sky window and hour 9 of the rain-alert set is in
the rain window. -/
theorem c10_alerts_within_windows_witness :
    (19 : ℤ) ∈ sky_hours 5 7 20 ∧ (9 : ℤ) ∈ rain_hours 5 :=
  ⟨(c10_alerts_within_windows (fun _ => 1) (fun _ => 1) 5 7 20).1 19
      (List.mem_filter.mpr ⟨by decide, by
        simp only [decide_eq_true_eq, SCORE_THRESHOLD]
        norm_num⟩),
   (c10_alerts_within_windows (fun _ => 1) (fun _ => 1) 5 7 20).2 9 (by decide)⟩
